import Mathlib

/-!
Verification development for the order/job status workflow of the Okna
repository (Express + Sequelize backend).  The definitions below are a
shallow embedding of:

* the Job model (src/unnamed/part_001): status enum, `getNextValidStatuses`,
  `canUpdateStatus`, `getJobTypeDisplay`, `getStatusDisplay`;
* the Order model (src/backend/models/Order.js): status enum,
  `getProgressPercentage`, the `beforeCreate` order-number hook;
* the job status-transition HTTP handler
  (src/backend/routes/notifications.js, PUT /:jobId/status), modelled from
  the point after the authentication / 404 / permission checks: transition
  validation, job update, audit-record insert, client notification, order
  status derivation;
* the order status HTTP handler (src/backend/routes/orders.js,
  PUT /:orderId/status), likewise modelled after its guard checks.

Machine state (the relational rows the handlers touch) is passed
explicitly; `Date` values are abstracted as a `now : Nat` parameter and
timestamps as `Option Nat` (JavaScript `null` = `none`; a `Date` object is
always truthy, `null` is falsy, so `!job.actual_start_time` is `isNone`).
Request-body strings that express-validator has already checked against the
enum (`body('status').isIn([...])`) are modelled by the corresponding
inductive types; `job_type` stays a `String` because the code looks it up
in string-keyed maps with a fallthrough for unknown keys.
-/

/-- The six job statuses of the `Job` Sequelize enum. -/
inductive JobStatus
  | assigned
  | en_route
  | arrived
  | in_progress
  | completed
  | cancelled
deriving DecidableEq, Repr

/-- The fifteen order statuses of the `Order` Sequelize enum. -/
inductive OrderStatus
  | pending
  | measuring_scheduled
  | measuring_in_progress
  | measuring_completed
  | production_scheduled
  | in_production
  | production_completed
  | delivery_scheduled
  | in_delivery
  | delivered
  | installation_scheduled
  | installation_in_progress
  | installation_completed
  | completed
  | cancelled
deriving DecidableEq, Repr

/-- Embedding of `Job.prototype.getNextValidStatuses`: the `statusFlow` lookup table.
The JavaScript returns `statusFlow[this.status] || []`; the lookup is total
on the enum so the fallback is unreachable for enum-valued statuses. -/
def getNextValidStatuses : JobStatus → List JobStatus
  | .assigned => [.en_route, .cancelled]
  | .en_route => [.arrived, .cancelled]
  | .arrived => [.in_progress, .cancelled]
  | .in_progress => [.completed, .cancelled]
  | .completed => []
  | .cancelled => []

/-- Embedding of `Job.prototype.canUpdateStatus(newStatus)`:
`this.getNextValidStatuses().includes(newStatus)`. -/
def canUpdateStatus (current newStatus : JobStatus) : Bool :=
  (getNextValidStatuses current).contains newStatus

/-- Embedding of `Job.prototype.getJobTypeDisplay`: `typeMap[this.job_type] || this.job_type`. -/
def getJobTypeDisplay (job_type : String) : String :=
  if job_type = "measuring" then "Measuring"
  else if job_type = "delivery" then "Delivery"
  else if job_type = "installation" then "Installation"
  else job_type

/-- Embedding of `Job.prototype.getStatusDisplay`: the `statusMap` lookup (total on the enum). -/
def getStatusDisplay : JobStatus → String
  | .assigned => "Assigned"
  | .en_route => "En Route"
  | .arrived => "Arrived"
  | .in_progress => "In Progress"
  | .completed => "Completed"
  | .cancelled => "Cancelled"

/-- Embedding of `Order.prototype.getStatusDisplay`: the order `statusMap` lookup. -/
def getOrderStatusDisplay : OrderStatus → String
  | .pending => "Pending"
  | .measuring_scheduled => "Measuring Scheduled"
  | .measuring_in_progress => "Measuring in Progress"
  | .measuring_completed => "Measuring Completed"
  | .production_scheduled => "Production Scheduled"
  | .in_production => "In Production"
  | .production_completed => "Production Completed"
  | .delivery_scheduled => "Delivery Scheduled"
  | .in_delivery => "In Delivery"
  | .delivered => "Delivered"
  | .installation_scheduled => "Installation Scheduled"
  | .installation_in_progress => "Installation in Progress"
  | .installation_completed => "Installation Completed"
  | .completed => "Completed"
  | .cancelled => "Cancelled"

/-- Embedding of `Order.prototype.getProgressPercentage`: the `statusProgress` lookup
table (`statusProgress[this.status] || 0`; total on the enum). -/
def getProgressPercentage : OrderStatus → Nat
  | .pending => 5
  | .measuring_scheduled => 10
  | .measuring_in_progress => 15
  | .measuring_completed => 25
  | .production_scheduled => 30
  | .in_production => 50
  | .production_completed => 70
  | .delivery_scheduled => 75
  | .in_delivery => 80
  | .delivered => 85
  | .installation_scheduled => 90
  | .installation_in_progress => 95
  | .installation_completed => 98
  | .completed => 100
  | .cancelled => 0

/-- The canonical happy-path sequence of order statuses named by the spec. -/
def happyPath : List OrderStatus :=
  [.pending, .measuring_scheduled, .measuring_in_progress, .measuring_completed,
   .production_scheduled, .in_production, .production_completed,
   .delivery_scheduled, .in_delivery, .delivered,
   .installation_scheduled, .installation_in_progress, .installation_completed,
   .completed]

/-- The row state of a `Job` that the status handler reads and writes. -/
structure Job where
  id : Nat
  order_id : Nat
  assigned_worker_id : Option Nat
  job_type : String
  status : JobStatus
  actual_start_time : Option Nat
  actual_end_time : Option Nat
deriving DecidableEq, Repr

/-- The row state of an `Order` that the handlers read and write.
`client_user` models `order.client.user` reached through the Sequelize
include (the `User` row linked from the order's `Client`; `clients.user_id`
is NOT NULL in the schema, but the handlers still guard `if (clientUser)`,
so the field is kept optional). -/
structure Order where
  id : Nat
  order_number : String
  client_id : Nat
  client_user : Option Nat
  assigned_manager_id : Option Nat
  status : OrderStatus
  total_amount : Int
  order_date : Nat
  estimated_completion_date : Option Nat
  actual_completion_date : Option Nat
  notes : Option String
deriving DecidableEq, Repr

/-- A `JobStatusUpdate` audit row (`previous_status` is nullable in the
model; the handler always supplies the old status). -/
structure JobStatusUpdate where
  job_id : Nat
  previous_status : Option JobStatus
  new_status : JobStatus
  updated_by : Nat
  notes : Option String
deriving DecidableEq, Repr

/-- The `type` enum of the `Notification` model. -/
inductive NotificationType
  | job_assignment
  | status_update
  | general
  | system
  | reminder
deriving DecidableEq, Repr

/-- A `Notification` row as created by the status handlers. -/
structure Notification where
  user_id : Nat
  title : String
  message : String
  type : NotificationType
  related_job_id : Option Nat
  related_order_id : Option Nat
deriving DecidableEq, Repr

/-- The slice of the database the job-status handler touches: the job, its
owning order, the audit table and the notification table (each table as the
list of its rows, appended in insertion order). -/
structure JobRouteState where
  job : Job
  order : Order
  updates : List JobStatusUpdate
  notifications : List Notification
deriving DecidableEq, Repr

/-- The HTTP response of `PUT /:jobId/status` after the auth/404 guards:
either the 400 `Invalid status transition` body (carrying `current_status`
and `valid_next_statuses`) or the 200 body's `old_status`/`new_status`. -/
inductive JobStatusResponse
  | invalidTransition (current_status : JobStatus) (valid_next_statuses : List JobStatus)
  | ok (old_status new_status : JobStatus)
deriving DecidableEq, Repr

/-- The `orderStatusMap` of the job-status handler: order status derived
from a completing job's type (`undefined` for unknown keys = `none`). -/
def orderStatusMap (job_type : String) : Option OrderStatus :=
  if job_type = "measuring" then some .measuring_completed
  else if job_type = "delivery" then some .delivered
  else if job_type = "installation" then some .installation_completed
  else none

/-- The job row after the handler's `job.update({status, actual_start_time,
actual_end_time})` call. -/
def jobAfterUpdate (job : Job) (status : JobStatus) (now : Nat) : Job :=
  { job with
    status := status
    actual_start_time :=
      if status = .in_progress ∧ job.actual_start_time = none
      then some now else job.actual_start_time
    actual_end_time :=
      if status = .completed then some now else job.actual_end_time }

/-- The order row after the handler's derivation step
`if (status === 'completed') { ... await job.order.update({status: newOrderStatus}) }`. -/
def orderAfterDerivation (order : Order) (job_type : String) (status : JobStatus) : Order :=
  if status = .completed then
    match orderStatusMap job_type with
    | some newOrderStatus => { order with status := newOrderStatus }
    | none => order
  else order

/-- The client notification created by the job-status handler (its message
interpolates `getJobTypeDisplay` and the job's *updated* `getStatusDisplay`). -/
def jobStatusNotification (clientUser : Nat) (job : Job) (status : JobStatus) : Notification :=
  { user_id := clientUser
    title := "Job Status Update"
    message := "Your " ++ getJobTypeDisplay job.job_type ++
      " job status has been updated to " ++ getStatusDisplay status
    type := .status_update
    related_job_id := some job.id
    related_order_id := some job.order_id }

/-- Embedding of `PUT /:jobId/status` (src/backend/routes/notifications.js), modelled
from the transition-validation check onwards: on an invalid transition it
responds 400 and performs no write; on a valid one it updates the job row,
appends one audit row, creates the client notification when the client has
a linked user, and derives the order status on completion. -/
def updateJobStatus (st : JobRouteState) (status : JobStatus) (actor : Nat)
    (notes : Option String) (now : Nat) : JobStatusResponse × JobRouteState :=
  if canUpdateStatus st.job.status status then
    let oldStatus := st.job.status
    let job' := jobAfterUpdate st.job status now
    let auditRow : JobStatusUpdate :=
      { job_id := st.job.id
        previous_status := some oldStatus
        new_status := status
        updated_by := actor
        notes := notes }
    let notifications' :=
      match st.order.client_user with
      | some clientUser =>
          st.notifications ++ [jobStatusNotification clientUser st.job status]
      | none => st.notifications
    let order' := orderAfterDerivation st.order st.job.job_type status
    (.ok oldStatus status,
     { job := job'
       order := order'
       updates := st.updates ++ [auditRow]
       notifications := notifications' })
  else
    (.invalidTransition st.job.status (getNextValidStatuses st.job.status), st)

/-- The slice of the database the order-status handler touches. -/
structure OrderRouteState where
  order : Order
  notifications : List Notification
deriving DecidableEq, Repr

/-- Embedding of `notes || order.notes`: the request's notes replace the stored ones
only when supplied and non-empty (the empty string is falsy in JavaScript). -/
def updatedNotes (notes old : Option String) : Option String :=
  match notes with
  | some n => if n.isEmpty then old else some n
  | none => old

/-- The client notification created by the order-status handler; the
message interpolates the order number and the *updated* status display. -/
def orderStatusNotification (clientUser : Nat) (order : Order) : Notification :=
  { user_id := clientUser
    title := "Order Status Update"
    message := "Your order " ++ order.order_number ++
      " status has been updated to " ++ getOrderStatusDisplay order.status
    type := .status_update
    related_job_id := none
    related_order_id := some order.id }

/-- Embedding of `PUT /:orderId/status` (src/backend/routes/orders.js), modelled from
after the management-role and 404 guards: no transition validation, then
`order.update({status, notes: notes || order.notes, actual_completion_date:
status === 'completed' ? new Date() : order.actual_completion_date})`,
then a client notification when the client has a linked user. -/
def setOrderStatus (st : OrderRouteState) (status : OrderStatus)
    (notes : Option String) (now : Nat) : OrderRouteState :=
  let order' : Order :=
    { st.order with
      status := status
      notes := updatedNotes notes st.order.notes
      actual_completion_date :=
        if status = .completed then some now else st.order.actual_completion_date }
  let notifications' :=
    match st.order.client_user with
    | some clientUser => st.notifications ++ [orderStatusNotification clientUser order']
    | none => st.notifications
  { order := order', notifications := notifications' }

/-- Embedding of `String.prototype.padStart(targetLength, padString)` for a one-char pad:
prepend copies of the pad character until the length reaches the target. -/
def padStart (s : String) (targetLength : Nat) (pad : Char) : String :=
  if targetLength ≤ s.length then s
  else String.mk (List.replicate (targetLength - s.length) pad) ++ s

/-- The order number built by the `beforeCreate` hook of Order.js:
`` `WM-${year}-${String(count + 1).padStart(6, '0')}` `` where `count` is
the number of orders whose `created_at` falls in `year`. -/
def generateOrderNumber (year count : Nat) : String :=
  "WM-" ++ toString year ++ "-" ++ padStart (toString (count + 1)) 6 '0'

/-- The `beforeCreate` hook: generate the number only when none was given. -/
def beforeCreateOrderNumber (existing : Option String) (year count : Nat) : String :=
  match existing with
  | some n => n
  | none => generateOrderNumber year count

/-- Embedding of the count query `EXTRACT(YEAR FROM created_at) = year`: how many of the previously
created orders (given by their creation years) fall in `year`. -/
def countInYear (createdYears : List Nat) (year : Nat) : Nat :=
  (createdYears.filter (fun y => y = year)).length

/-- The number the hook assigns to the i-th order ever created (no
explicit number supplied), when `createdYears` lists every order's
creation year in creation sequence: the hook counts the earlier orders of
the same year. -/
def assignedOrderNumber (createdYears : List Nat) (i : Nat) (h : i < createdYears.length) : String :=
  generateOrderNumber (createdYears.get ⟨i, h⟩)
    (countInYear (createdYears.take i) (createdYears.get ⟨i, h⟩))

/-- One persistence call of the job-status handler, in program order. -/
inductive DbWrite
  | jobUpdate (job : Job)
  | jobStatusUpdateInsert (row : JobStatusUpdate)
  | notificationInsert (row : Notification)
  | orderUpdate (order : Order)
deriving DecidableEq, Repr

/-- Apply one persistence call to the database slice. -/
def applyWrite (st : JobRouteState) : DbWrite → JobRouteState
  | .jobUpdate job => { st with job := job }
  | .jobStatusUpdateInsert row => { st with updates := st.updates ++ [row] }
  | .notificationInsert row => { st with notifications := st.notifications ++ [row] }
  | .orderUpdate order => { st with order := order }

/-- Apply a sequence of persistence calls in order. -/
def applyWrites (st : JobRouteState) (ws : List DbWrite) : JobRouteState :=
  ws.foldl applyWrite st

/-- The sequence of persistence calls the job-status handler issues on a
valid transition, in source order: `await job.update(...)`, then
`await JobStatusUpdate.create(...)`, then `await Notification.create(...)`
(when the client has a user), then `await job.order.update(...)` (on
completion of a mapped job type).  The handler opens no transaction, so a
crash truncates this sequence at an arbitrary prefix. -/
def jobStatusWrites (st : JobRouteState) (status : JobStatus) (actor : Nat)
    (notes : Option String) (now : Nat) : List DbWrite :=
  [DbWrite.jobUpdate (jobAfterUpdate st.job status now),
   DbWrite.jobStatusUpdateInsert
     { job_id := st.job.id
       previous_status := some st.job.status
       new_status := status
       updated_by := actor
       notes := notes }] ++
  (match st.order.client_user with
   | some clientUser => [DbWrite.notificationInsert (jobStatusNotification clientUser st.job status)]
   | none => []) ++
  (if status = .completed then
     match orderStatusMap st.job.job_type with
     | some newOrderStatus => [DbWrite.orderUpdate { st.order with status := newOrderStatus }]
     | none => []
   else [])

/-- The allowed-next table exactly as the specification states it
(assigned -> en_route/cancelled, en_route -> arrived/cancelled,
arrived -> in_progress/cancelled, in_progress -> completed/cancelled,
terminal states -> nothing), written independently of the implementation
table for comparison against it. -/
def specAllowedNext : JobStatus → List JobStatus
  | .assigned => [.en_route, .cancelled]
  | .en_route => [.arrived, .cancelled]
  | .arrived => [.in_progress, .cancelled]
  | .in_progress => [.completed, .cancelled]
  | .completed => []
  | .cancelled => []

/-- A concrete job in status assigned, used to instantiate theorems. -/
def sampleJob : Job :=
  { id := 1, order_id := 2, assigned_worker_id := some 3, job_type := "measuring",
    status := .assigned, actual_start_time := none, actual_end_time := none }

/-- A concrete order in status pending whose client has a linked user. -/
def sampleOrder : Order :=
  { id := 2, order_number := "WM-2025-000001", client_id := 4, client_user := some 5,
    assigned_manager_id := none, status := .pending, total_amount := 100,
    order_date := 0, estimated_completion_date := none,
    actual_completion_date := none, notes := none }

/-- Concrete database slice: assigned job over a pending order. -/
def sampleState : JobRouteState :=
  { job := sampleJob, order := sampleOrder, updates := [], notifications := [] }

/-- Concrete database slice whose job is already in the terminal status completed. -/
def sampleCompletedState : JobRouteState :=
  { job := { sampleJob with status := .completed }, order := sampleOrder,
    updates := [], notifications := [] }

/-- Concrete database slice whose job is arrived with no start timestamp. -/
def sampleArrivedState : JobRouteState :=
  { job := { sampleJob with status := .arrived }, order := sampleOrder,
    updates := [], notifications := [] }

/-- Concrete database slice: an installation job in progress whose owning
order is already in the terminal status completed. -/
def sampleInProgressState : JobRouteState :=
  { job :=
      { sampleJob with
        status := .in_progress
        job_type := "installation"
        actual_start_time := some 3 }
    order := { sampleOrder with status := .completed }
    updates := []
    notifications := [] }

/-- Concrete order-route database slice. -/
def sampleOrderState : OrderRouteState :=
  { order := sampleOrder, notifications := [] }

/-- The implementation's statusFlow table coincides with the table stated
in the specification. -/
theorem getNextValidStatuses_eq_spec (s : JobStatus) :
    getNextValidStatuses s = specAllowedNext s := by
  cases s <;> rfl

/-- canUpdateStatus decides membership in the specification's table. -/
theorem canUpdateStatus_iff_mem (c r : JobStatus) :
    canUpdateStatus c r = true ↔ r ∈ specAllowedNext c := by
  cases c <;> cases r <;> decide

/-- C1: a requested job status transition is accepted exactly when the
requested status is in the allowed-next set of the specification's table
for the job's current status; from a terminal current status (completed or
cancelled) the valid-next set is empty and every request is rejected. -/
theorem job_transition_accepted_iff_table (st : JobRouteState) (status : JobStatus)
    (actor : Nat) (notes : Option String) (now : Nat) :
    ((updateJobStatus st status actor notes now).1 = .ok st.job.status status
      ↔ status ∈ specAllowedNext st.job.status)
    ∧ (st.job.status = .completed ∨ st.job.status = .cancelled →
        (updateJobStatus st status actor notes now).1 =
          .invalidTransition st.job.status [] ∧ specAllowedNext st.job.status = []) := by
  obtain ⟨job, order, updates, notifs⟩ := st
  obtain ⟨id, oid, w, jt, s, ast, aet⟩ := job
  cases s <;> cases status <;>
    simp [updateJobStatus, canUpdateStatus, getNextValidStatuses, specAllowedNext]

/-- Instantiation of the C1 theorem: from the terminal status completed,
the request en_route is rejected with an empty valid-next set. -/
theorem job_transition_accepted_iff_table_witness :
    (updateJobStatus sampleCompletedState .en_route 7 none 5).1 =
      .invalidTransition .completed [] := by
  have h := (job_transition_accepted_iff_table sampleCompletedState .en_route 7 none 5).2
    (Or.inl rfl)
  exact h.1

/-- C2: for a (current, requested) pair outside the specification's table,
the handler responds InvalidTransition carrying the current status and the
full valid-next set, and leaves the whole database slice (in particular the
job's status and actual_start_time) unchanged. -/
theorem invalid_transition_rejected_unchanged (st : JobRouteState) (status : JobStatus)
    (actor : Nat) (notes : Option String) (now : Nat)
    (h : status ∉ specAllowedNext st.job.status) :
    updateJobStatus st status actor notes now =
      (.invalidTransition st.job.status (specAllowedNext st.job.status), st) := by
  have hc : canUpdateStatus st.job.status status = false := by
    rcases Bool.eq_false_or_eq_true (canUpdateStatus st.job.status status) with hb | hb
    · exact absurd ((canUpdateStatus_iff_mem _ _).mp hb) h
    · exact hb
  simp [updateJobStatus, hc, getNextValidStatuses_eq_spec]

/-- Instantiation of the C2 theorem: requesting completed from assigned is
rejected with the current status and valid set, with no state change. -/
theorem invalid_transition_rejected_unchanged_witness :
    updateJobStatus sampleState .completed 7 none 5 =
      (.invalidTransition .assigned [.en_route, .cancelled], sampleState) := by
  have h := invalid_transition_rejected_unchanged sampleState .completed 7 none 5 (by decide)
  exact h

/-- C3: for a (current, requested) pair of the table, the handler responds
ok, the stored job status afterwards equals the requested status, and
exactly one audit row is appended, with previous_status the old status and
new_status the requested one. -/
theorem valid_transition_updates_and_audits (st : JobRouteState) (status : JobStatus)
    (actor : Nat) (notes : Option String) (now : Nat)
    (h : status ∈ specAllowedNext st.job.status) :
    (updateJobStatus st status actor notes now).1 = .ok st.job.status status
    ∧ (updateJobStatus st status actor notes now).2.job.status = status
    ∧ (updateJobStatus st status actor notes now).2.updates = st.updates ++
        [{ job_id := st.job.id
           previous_status := some st.job.status
           new_status := status
           updated_by := actor
           notes := notes }] := by
  have hc : canUpdateStatus st.job.status status = true :=
    (canUpdateStatus_iff_mem _ _).mpr h
  simp [updateJobStatus, hc, jobAfterUpdate]

/-- Instantiation of the C3 theorem: assigned to en_route succeeds and
appends exactly the expected audit row. -/
theorem valid_transition_updates_and_audits_witness :
    (updateJobStatus sampleState .en_route 7 (some "left depot") 5).1 = .ok .assigned .en_route
    ∧ (updateJobStatus sampleState .en_route 7 (some "left depot") 5).2.job.status = .en_route
    ∧ (updateJobStatus sampleState .en_route 7 (some "left depot") 5).2.updates =
        [{ job_id := 1
           previous_status := some .assigned
           new_status := .en_route
           updated_by := 7
           notes := some "left depot" }] := by
  have h := valid_transition_updates_and_audits sampleState .en_route 7
    (some "left depot") 5 (by decide)
  simpa [sampleState, sampleJob] using h

/-- C5: on a successful transition, entering in_progress stamps
actual_start_time with now exactly when no start timestamp was recorded
yet (an already-set one is kept), and entering completed stamps
actual_end_time with now. -/
theorem valid_transition_timestamps (st : JobRouteState) (status : JobStatus)
    (actor : Nat) (notes : Option String) (now : Nat)
    (h : status ∈ specAllowedNext st.job.status) :
    (status = .in_progress →
      (updateJobStatus st status actor notes now).2.job.actual_start_time =
        (if st.job.actual_start_time = none then some now else st.job.actual_start_time))
    ∧ (status = .completed →
      (updateJobStatus st status actor notes now).2.job.actual_end_time = some now) := by
  have hc : canUpdateStatus st.job.status status = true :=
    (canUpdateStatus_iff_mem _ _).mpr h
  constructor
  · intro hs
    subst hs
    simp [updateJobStatus, hc, jobAfterUpdate]
  · intro hs
    subst hs
    simp [updateJobStatus, hc, jobAfterUpdate]

/-- Instantiation of the C5 theorem: arrived to in_progress with no start
timestamp stamps actual_start_time = now; in_progress to completed stamps
actual_end_time = now while keeping the recorded actual_start_time. -/
theorem valid_transition_timestamps_witness :
    (updateJobStatus sampleArrivedState .in_progress 7 none 5).2.job.actual_start_time = some 5
    ∧ (updateJobStatus sampleInProgressState .completed 7 none 9).2.job.actual_end_time = some 9 := by
  have h1 := (valid_transition_timestamps sampleArrivedState .in_progress 7 none 5
    (by decide)).1 rfl
  have h2 := (valid_transition_timestamps sampleInProgressState .completed 7 none 9
    (by decide)).2 rfl
  refine ⟨?_, h2⟩
  simpa [sampleArrivedState, sampleJob] using h1

/-- C6: on a successful transition into completed the owning order's status
is overwritten according to the job type (measuring, delivery, installation
map to measuring_completed, delivered, installation_completed; an unmapped
type leaves it unchanged) regardless of the order's previous status, which
is universally quantified here and may be terminal; a successful transition
into any other status leaves the order row untouched. -/
theorem job_completion_derives_order_status (st : JobRouteState) (status : JobStatus)
    (actor : Nat) (notes : Option String) (now : Nat)
    (h : status ∈ specAllowedNext st.job.status) :
    (status = .completed →
      (st.job.job_type = "measuring" →
        (updateJobStatus st status actor notes now).2.order.status = .measuring_completed)
      ∧ (st.job.job_type = "delivery" →
        (updateJobStatus st status actor notes now).2.order.status = .delivered)
      ∧ (st.job.job_type = "installation" →
        (updateJobStatus st status actor notes now).2.order.status = .installation_completed)
      ∧ (orderStatusMap st.job.job_type = none →
        (updateJobStatus st status actor notes now).2.order = st.order))
    ∧ (status ≠ .completed →
      (updateJobStatus st status actor notes now).2.order = st.order) := by
  have hc : canUpdateStatus st.job.status status = true :=
    (canUpdateStatus_iff_mem _ _).mpr h
  constructor
  · intro hs
    subst hs
    refine ⟨?_, ?_, ?_, ?_⟩
    · intro ht
      simp [updateJobStatus, hc, orderAfterDerivation, orderStatusMap, ht]
    · intro ht
      simp [updateJobStatus, hc, orderAfterDerivation, orderStatusMap, ht]
    · intro ht
      simp [updateJobStatus, hc, orderAfterDerivation, orderStatusMap, ht]
    · intro ht
      simp [updateJobStatus, hc, orderAfterDerivation, ht]
  · intro hs
    simp [updateJobStatus, hc, orderAfterDerivation, hs]

/-- Instantiation of the C6 theorem: completing an installation job whose
owning order is already in the terminal status completed overwrites the
order's status to installation_completed anyway. -/
theorem job_completion_derives_order_status_witness :
    sampleInProgressState.order.status = .completed
    ∧ (updateJobStatus sampleInProgressState .completed 7 none 9).2.order.status =
        .installation_completed := by
  have h := ((job_completion_derives_order_status sampleInProgressState .completed 7 none 9
    (by decide)).1 rfl).2.2.1 rfl
  exact ⟨rfl, h⟩

/-- Replaying the handler's full persistence-call sequence reproduces the
handler's final state: jobStatusWrites is a faithful decomposition of the
valid-transition branch of updateJobStatus into its individual writes. -/
theorem applyWrites_jobStatusWrites (st : JobRouteState) (status : JobStatus)
    (actor : Nat) (notes : Option String) (now : Nat)
    (hc : canUpdateStatus st.job.status status = true) :
    applyWrites st (jobStatusWrites st status actor notes now) =
      (updateJobStatus st status actor notes now).2 := by
  obtain ⟨job, order, updates, notifs⟩ := st
  cases horder : order.client_user <;>
    by_cases hs : status = .completed <;>
      cases hmap : orderStatusMap job.job_type <;>
        simp_all [applyWrites, jobStatusWrites, applyWrite, updateJobStatus,
          orderAfterDerivation]

/-- C4: the handler issues the job-status write and the audit-record insert
as two separate persistence calls with no enclosing transaction, so the
claimed atomicity fails: replaying only the first call of the write
sequence for the valid transition assigned to en_route yields a state whose
job status is already en_route while the audit table is still empty,
whereas the full run appends an audit row; both writes belong to the same
sequence, as the replay of the full sequence shows. -/
theorem job_status_write_not_atomic :
    canUpdateStatus sampleState.job.status .en_route = true
    ∧ (applyWrites sampleState ((jobStatusWrites sampleState .en_route 7 none 5).take 1)).job.status = .en_route
    ∧ (applyWrites sampleState ((jobStatusWrites sampleState .en_route 7 none 5).take 1)).updates = []
    ∧ (updateJobStatus sampleState .en_route 7 none 5).2.updates ≠ []
    ∧ applyWrites sampleState (jobStatusWrites sampleState .en_route 7 none 5) =
        (updateJobStatus sampleState .en_route 7 none 5).2 := by
  refine ⟨by decide, by decide, by decide, by decide, ?_⟩
  exact applyWrites_jobStatusWrites sampleState .en_route 7 none 5 (by decide)

/-- C7: the direct management status update performs no transition-graph
validation: for an arbitrary current order state and an arbitrary one of
the 15 status values it always succeeds, the stored status becomes the
requested one, actual_completion_date is stamped with now exactly when the
new status is completed (otherwise kept), and a status-update notification
for the order's client user is appended. -/
theorem setOrderStatus_unvalidated (st : OrderRouteState) (status : OrderStatus)
    (notes : Option String) (now : Nat) (u : Nat)
    (h : st.order.client_user = some u) :
    (setOrderStatus st status notes now).order.status = status
    ∧ (status = .completed →
        (setOrderStatus st status notes now).order.actual_completion_date = some now)
    ∧ (status ≠ .completed →
        (setOrderStatus st status notes now).order.actual_completion_date =
          st.order.actual_completion_date)
    ∧ (setOrderStatus st status notes now).notifications = st.notifications ++
        [{ user_id := u
           title := "Order Status Update"
           message := "Your order " ++ st.order.order_number ++
             " status has been updated to " ++ getOrderStatusDisplay status
           type := .status_update
           related_job_id := none
           related_order_id := some st.order.id }] := by
  refine ⟨?_, ?_, ?_, ?_⟩
  · simp [setOrderStatus]
  · intro hs
    simp [setOrderStatus, hs]
  · intro hs
    simp [setOrderStatus, hs]
  · simp [setOrderStatus, h, orderStatusNotification]

/-- Instantiation of the C7 theorem: completing a pending order directly
succeeds, stamps the completion date, and notifies the client; a second
application with a non-completed status keeps the completion date. -/
theorem setOrderStatus_unvalidated_witness :
    (setOrderStatus sampleOrderState .completed none 9).order.status = .completed
    ∧ (setOrderStatus sampleOrderState .completed none 9).order.actual_completion_date = some 9
    ∧ (setOrderStatus sampleOrderState .in_production none 9).order.actual_completion_date = none
    ∧ (setOrderStatus sampleOrderState .completed none 9).notifications =
        [{ user_id := 5
           title := "Order Status Update"
           message := "Your order WM-2025-000001 status has been updated to Completed"
           type := .status_update
           related_job_id := none
           related_order_id := some 2 }] := by
  have h1 := setOrderStatus_unvalidated sampleOrderState .completed none 9 5 rfl
  have h2 := setOrderStatus_unvalidated sampleOrderState .in_production none 9 5 rfl
  refine ⟨h1.1, h1.2.1 rfl, ?_, ?_⟩
  · have := h2.2.2.1 (by decide)
    simpa [sampleOrderState, sampleOrder] using this
  · have := h1.2.2.2
    simpa [sampleOrderState, sampleOrder, getOrderStatusDisplay] using this

/-- C10: the direct management status update touches only status, notes and
actual_completion_date: every other order field is unchanged, the
completion date is kept whenever the new status is not completed, and the
stored notes are kept when the request carries none. -/
theorem setOrderStatus_frame (st : OrderRouteState) (status : OrderStatus)
    (notes : Option String) (now : Nat) :
    (setOrderStatus st status notes now).order.id = st.order.id
    ∧ (setOrderStatus st status notes now).order.order_number = st.order.order_number
    ∧ (setOrderStatus st status notes now).order.client_id = st.order.client_id
    ∧ (setOrderStatus st status notes now).order.client_user = st.order.client_user
    ∧ (setOrderStatus st status notes now).order.assigned_manager_id = st.order.assigned_manager_id
    ∧ (setOrderStatus st status notes now).order.total_amount = st.order.total_amount
    ∧ (setOrderStatus st status notes now).order.order_date = st.order.order_date
    ∧ (setOrderStatus st status notes now).order.estimated_completion_date =
        st.order.estimated_completion_date
    ∧ (status ≠ .completed →
        (setOrderStatus st status notes now).order.actual_completion_date =
          st.order.actual_completion_date)
    ∧ (notes = none →
        (setOrderStatus st status notes now).order.notes = st.order.notes) := by
  refine ⟨rfl, rfl, rfl, rfl, rfl, rfl, rfl, rfl, ?_, ?_⟩
  · intro hs
    simp [setOrderStatus, hs]
  · intro hn
    simp [setOrderStatus, hn, updatedNotes]

/-- Instantiation of the C10 theorem: updating a pending order to
in_delivery with no notes changes neither identity fields, completion date
nor notes. -/
theorem setOrderStatus_frame_witness :
    (setOrderStatus sampleOrderState .in_delivery none 9).order.order_number = "WM-2025-000001"
    ∧ (setOrderStatus sampleOrderState .in_delivery none 9).order.client_id = 4
    ∧ (setOrderStatus sampleOrderState .in_delivery none 9).order.actual_completion_date = none
    ∧ (setOrderStatus sampleOrderState .in_delivery none 9).order.notes = none := by
  have h := setOrderStatus_frame sampleOrderState .in_delivery none 9
  refine ⟨?_, ?_, ?_, ?_⟩
  · simpa [sampleOrderState, sampleOrder] using h.2.1
  · simpa [sampleOrderState, sampleOrder] using h.2.2.1
  · simpa [sampleOrderState, sampleOrder] using h.2.2.2.2.2.2.2.2.1 (by decide)
  · simpa [sampleOrderState, sampleOrder] using h.2.2.2.2.2.2.2.2.2 rfl

/-- C8: getProgressPercentage is a total lookup on the 15 order statuses
with every value at most 100, cancelled mapped to 0, completed mapped to
100, and the values non-decreasing along the canonical happy-path
sequence. -/
theorem getProgressPercentage_spec :
    (∀ s : OrderStatus, getProgressPercentage s ≤ 100)
    ∧ getProgressPercentage .cancelled = 0
    ∧ getProgressPercentage .completed = 100
    ∧ List.Chain' (fun a b => a ≤ b) (happyPath.map getProgressPercentage) := by
  refine ⟨?_, rfl, rfl, ?_⟩
  · intro s
    cases s <;> decide
  · norm_num [happyPath, List.chain'_cons, getProgressPercentage]

/-- C9: the order number the beforeCreate hook assigns when none is given
is WM-<year>-<sequence> with the sequence the count of same-year orders
created before it plus one, rendered zero-padded to six digits; an order
whose creation year has not occurred before gets sequence 000001, so the
numbering restarts from 1 each year. -/
theorem order_number_format_and_yearly_restart (createdYears : List Nat) (i : Nat)
    (h : i < createdYears.length) :
    assignedOrderNumber createdYears i h =
      "WM-" ++ toString (createdYears.get ⟨i, h⟩) ++ "-" ++
        padStart (toString (countInYear (createdYears.take i) (createdYears.get ⟨i, h⟩) + 1)) 6 '0'
    ∧ (createdYears.get ⟨i, h⟩ ∉ createdYears.take i →
        assignedOrderNumber createdYears i h =
          "WM-" ++ toString (createdYears.get ⟨i, h⟩) ++ "-" ++ "000001") := by
  constructor
  · rfl
  · intro hnotin
    have h0 : countInYear (createdYears.take i) (createdYears.get ⟨i, h⟩) = 0 := by
      rw [countInYear, List.length_eq_zero]
      refine List.filter_eq_nil_iff.mpr ?_
      intro a ha hb
      exact hnotin ((of_decide_eq_true hb) ▸ ha)
    have hpad : padStart (toString (0 + 1)) 6 '0' = "000001" := by decide
    rw [assignedOrderNumber, h0, generateOrderNumber, hpad]

/-- Instantiation of the C9 theorem: with creation years 2024, 2024, 2025,
the third order (first of 2025) is numbered WM-2025-000001 even though two
orders exist already, and the second order of 2024 is numbered
WM-2024-000002. -/
theorem order_number_format_and_yearly_restart_witness :
    assignedOrderNumber [2024, 2024, 2025] 2 (by decide) = "WM-2025-000001"
    ∧ assignedOrderNumber [2024, 2024, 2025] 1 (by decide) = "WM-2024-000002" := by
  constructor
  · have h := (order_number_format_and_yearly_restart [2024, 2024, 2025] 2 (by decide)).2
      (by decide)
    rw [h]
    decide
  · have h := (order_number_format_and_yearly_restart [2024, 2024, 2025] 1 (by decide)).1
    rw [h]
    decide
